import Mathlib

/-!
Shallow embedding of the update-check / download / verification subsystem of
the heat-sheet-pdf-highlighter repository (src/src/version.py,
src/src/utils/cache.py, src/src/utils/updater.py), together with theorems
settling the specification claims about it.

External effects (HTTP requests, file system, GUI callbacks, hashing, JSON
parsing, ISO timestamp parsing) are modelled by explicit environment values
passed to the embedded functions, and by an event log recording every
observable call the code makes, in order.
-/

namespace HeatSheet

/-! ## Version model (src/src/version.py)

`Version` is a dataclass `{major, minor, patch, rc}` where `rc` is an optional
non-negative integer (every value the program constructs comes from
`re.findall(r"\d+", ...)`, hence non-negative). -/

structure Version where
  major : Nat
  minor : Nat
  patch : Nat
  rc : Option Nat
deriving DecidableEq, Repr

/-- The sentinel used by `__lt__`/`__gt__`: `self.rc if self.rc is not None else -1`. -/
def rcKey : Option Nat → Int
  | none => -1
  | some n => (n : Int)

/-- The embedding of `Version.__lt__`: Python tuple comparison
`(major, minor, patch, rc_or_-1) < (major, minor, patch, rc_or_-1)`,
which is lexicographic. -/
def Version.ltb (a b : Version) : Bool :=
  decide (a.major < b.major ∨ (a.major = b.major ∧
    (a.minor < b.minor ∨ (a.minor = b.minor ∧
      (a.patch < b.patch ∨ (a.patch = b.patch ∧ rcKey a.rc < rcKey b.rc))))))

/-- The embedding of `Version.__gt__`: the same tuples compared with `>`. -/
def Version.gtb (a b : Version) : Bool :=
  decide (b.major < a.major ∨ (b.major = a.major ∧
    (b.minor < a.minor ∨ (b.minor = a.minor ∧
      (b.patch < a.patch ∨ (b.patch = a.patch ∧ rcKey b.rc < rcKey a.rc))))))

/-- The embedding of `Version.__eq__`: field-wise tuple equality, `rc` compared directly
(`None` vs a number, no sentinel). -/
def Version.eqb (a b : Version) : Bool :=
  decide (a = b)

/-- Digit runs of a string, in order: the embedding of `re.findall(r"\d+", s)`.
`cur` accumulates the current run in reverse. -/
def digitRunsAux : List Char → List Char → List (List Char)
  | [], cur => if cur.isEmpty then [] else [cur.reverse]
  | c :: rest, cur =>
    if c.isDigit then digitRunsAux rest (c :: cur)
    else if cur.isEmpty then digitRunsAux rest []
    else cur.reverse :: digitRunsAux rest []

def digitRuns (s : String) : List (List Char) :=
  digitRunsAux s.data []

/-- The embedding of `int(...)` on a run of decimal digits. -/
def charsToNat (cs : List Char) : Nat :=
  cs.foldl (fun a c => a * 10 + (c.toNat - 48)) 0

/-- The embedding of `Version.from_str`: takes the digit runs of the string; the first three
become major/minor/patch, a fourth (if any) becomes `rc`.  Python raises
`IndexError` when fewer than three runs exist; the embedding returns `none`
there. -/
def Version.from_str (s : String) : Option Version :=
  match digitRuns s with
  | p0 :: p1 :: p2 :: rest =>
    some ⟨charsToNat p0, charsToNat p1, charsToNat p2,
      match rest with
      | [] => none
      | p3 :: _ => some (charsToNat p3)⟩
  | _ => none

/-- The embedding of `Version.__str__`: `-rcN` suffix only when `self.rc` is truthy
(present and non-zero). -/
def Version.str (v : Version) : String :=
  let base := toString v.major ++ "." ++ toString v.minor ++ "." ++ toString v.patch
  match v.rc with
  | some n => if n = 0 then base else base ++ "-rc" ++ toString n
  | none => base

/-! ## Observable events

Every call the embedded code makes to an external collaborator (GUI callback,
network, cache file, settings store, process spawning) is recorded as an event,
in program order. -/

inductive Event
  | httpGet (url : String)
  | invalidateReleases
  | cacheWriteUpdate
  | updateCallback
  | settingsWrite (key val : String)
  | showUpToDate
  | showUpdateErrorRetry (msg : String)
  | showUpdateAvailable (v : Version)
  | showUpdateReminderChoice
  | showDownloadError (msg : String)
  | startDownloadPipeline (url : String) (sha : Option String)
  | startDownloadUI
  | finishDownloadUI
  | setupProgress (total : Nat)
  | progress (n : Nat)
  | logSizeMismatch
  | unlink
  | closeApplication
  | spawnInstaller
deriving DecidableEq, Repr

/-- A Python exception escaping the function under consideration (uncaught). -/
inductive Raised
  | keyError
  | indexError
  | requestExn (msg : String)
  | httpExn (msg : String)
deriving DecidableEq, Repr

/-- The embedding of `str.lower()` restricted to the ASCII range the release asset names and
hex digests use. -/
def lowerData (s : String) : List Char := s.data.map Char.toLower

/-- The embedding of `name.lower().endswith(suffix)` for an ASCII `suffix`. -/
def nameEndsWith (name suffix : String) : Bool :=
  let low := lowerData name
  decide (suffix.data = low.drop (low.length - suffix.data.length))

/-! ## Release data and asset selection (src/src/utils/updater.py) -/

/-- One entry of a release's `assets` list; `browser_download_url` is `none`
when the key is missing (`asset.get` returns `None`). -/
structure Asset where
  name : String
  browser_download_url : Option String
deriving DecidableEq, Repr

structure ReleaseInfo where
  tag_name : String
  prerelease : Bool
  assets : List Asset
deriving DecidableEq, Repr

/-- The embedding of `UpdateChecker._select_release_assets`: scan the asset list in order; a
name whose lowercase form ends with `".exe"` sets the exe slot, otherwise a
name ending with `".sha256"` sets the sha slot.  Each hit overwrites the slot
unconditionally. -/
def selectStep (acc : Option String × Option String) (asset : Asset) :
    Option String × Option String :=
  if nameEndsWith asset.name ".exe" then (asset.browser_download_url, acc.2)
  else if nameEndsWith asset.name ".sha256" then (acc.1, asset.browser_download_url)
  else acc

def selectReleaseAssets (assets : List Asset) : Option String × Option String :=
  assets.foldl selectStep (none, none)

/-- Whether an asset matches the installer suffix test of the source. -/
def exeMatch (a : Asset) : Bool := nameEndsWith a.name ".exe"

/-- Whether an asset reaches and passes the `.sha256` branch of the source
(the `elif`, so only when the `.exe` test failed). -/
def shaMatch (a : Asset) : Bool :=
  !(nameEndsWith a.name ".exe") && nameEndsWith a.name ".sha256"

/-- The spec's stated selection rule, written from the spec's words
("first match wins"): the first asset ending in the installer suffix and the
first ending in `.sha256` provide the two slots. -/
def selectAssetsFirstMatchSpec (assets : List Asset) : Option String × Option String :=
  ((assets.find? exeMatch).bind (·.browser_download_url),
   (assets.find? shaMatch).bind (·.browser_download_url))

/-! ## Update-check cache (src/src/utils/cache.py, `load_update_cache`) -/

/-- Outcome of `read_text` + `json.loads` on the cache file's bytes:
either the read/parse raises (`UnicodeDecodeError`/`JSONDecodeError`), or it
produces a JSON value from which the two string fields may be extracted
(`none` models a missing key / non-dict value, whose lookup raises). -/
inductive JsonOutcome
  | invalid
  | obj (fetched_at : Option String) (latest_version : Option String)
deriving DecidableEq, Repr

/-- The sentinel payload written when resetting a corrupt update cache:
`{"fetched_at": "1970-01-01T00:00:00", "latest_version": "0.0.0"}`. -/
def sentinelObj : JsonOutcome :=
  .obj (some "1970-01-01T00:00:00") (some "0.0.0")

structure LoadOutcome where
  /-- Either `.ok (fetched_at?, version?)` or the Python exception that escapes. -/
  result : Except Raised (Option Int × Option Version)
  /-- The cache file after the call: `none` = absent. -/
  fileAfter : Option JsonOutcome
deriving Repr

/-- The embedding of `load_update_cache`.  `fromIso` embeds `datetime.datetime.fromisoformat`
(`none` = raises); `file` is the cache file (`none` = absent); `writeOk` says
whether the atomic reset write would succeed (its failure is swallowed). -/
def load_update_cache (fromIso : String → Option Int)
    (file : Option JsonOutcome) (writeOk : Bool) : LoadOutcome :=
  match file with
  | none => ⟨.ok (none, none), none⟩
  | some .invalid =>
    -- invalid JSON: reset to the sentinel without unlinking; a failing
    -- write is caught and logged, then return (None, None)
    ⟨.ok (none, none), some (if writeOk then sentinelObj else .invalid)⟩
  | some (.obj fa lv) =>
    match fa with
    | none => ⟨.ok (none, none), some (.obj fa lv)⟩   -- KeyError, caught
    | some s =>
      match fromIso s with
      | none => ⟨.ok (none, none), some (.obj fa lv)⟩ -- ValueError, caught
      | some t =>
        match lv with
        | none => ⟨.error .keyError, some (.obj fa lv)⟩  -- uncaught KeyError
        | some vs =>
          match Version.from_str vs with
          | none => ⟨.error .indexError, some (.obj fa lv)⟩ -- uncaught IndexError
          | some v => ⟨.ok (some t, some v), some (.obj fa lv)⟩

/-! ## Update checker orchestration (src/src/utils/updater.py)

The checker's external collaborators are modelled by a `CheckEnv`: the
outcomes the network and the GUI would produce.  Settings are the keys the
updater reads/writes, threaded explicitly.  Each embedded method returns its
result, updated settings, and the event trace. -/

/-- URLs from src/src/config/paths.py. -/
def GITHUB_RELEASES : String :=
  "https://api.github.com/repos/jonalbr/heat-sheet-pdf-highlighter/releases"

def GITHUB_LATEST_RELEASE : String :=
  "https://api.github.com/repos/jonalbr/heat-sheet-pdf-highlighter/releases/latest"

/-- The settings keys the updater touches (`AppSettings.settings`).
`update_cache_ttl_seconds` is held as the integer the code coerces it to. -/
structure Settings where
  update_channel : String
  verify_sha : String
  ask_for_update : String
  newest_version_available : String
  update_cache_ttl_seconds : Int
deriving DecidableEq, Repr

/-- The embedding of `check_for_app_updates` returns `Version | False` (`False` being the
failure sentinel of `_handle_update_check_exception`). -/
inductive CheckResult
  | ver (v : Version)
  | failedFalse
deriving DecidableEq, Repr

/-- Environment: pre-determined outcomes of the external calls made during a
check.  `latestRelease` is the parsed body of the `releases/latest` request
(`.error msg` = `requests.exceptions.RequestException`); `allReleases` the
body of the `releases` request; `cacheLoad` the value `load_update_cache()`
returns; the remaining fields are GUI dialog answers. -/
structure CheckEnv where
  now : Int
  cacheLoad : Option (Int × Version)
  latestRelease : Except String ReleaseInfo
  allReleases : List ReleaseInfo
  updateAvailableChoice : Option Bool
  reminderChoice : Bool
  retryChoice : Bool

/-- The embedding of `UpdateChecker._handle_beta_releases`: fetch all releases; if any
prerelease exists, compare the first one's version against the stable
candidate and adopt it when strictly newer (updating the two settings keys);
if none exists, update the two settings keys unconditionally. -/
def handleBetaReleases (env : CheckEnv) (st : Settings) (latest : Version)
    (download_url sha_url : Option String) :
    Except Raised (Version × Option String × Option String) × Settings × List Event :=
  let evF := [Event.httpGet GITHUB_RELEASES]
  match env.allReleases.filter (·.prerelease) with
  | [] =>
    (.ok (latest, download_url, sha_url),
     { st with newest_version_available := latest.str, ask_for_update := "True" },
     evF ++ [Event.settingsWrite "newest_version_available" latest.str,
             Event.settingsWrite "ask_for_update" "True"])
  | pre :: _ =>
    match Version.from_str pre.tag_name with
    | none => (.error .indexError, st, evF)  -- Version.from_str raises
    | some preV =>
      if preV.gtb latest then
        let (exeU, shaPre) := selectReleaseAssets pre.assets
        let dl := match exeU with
          | some u => some u
          | none => download_url   -- `exe_url or download_url`
        (.ok (preV, dl, shaPre),
         { st with newest_version_available := preV.str, ask_for_update := "True" },
         evF ++ [Event.settingsWrite "newest_version_available" preV.str,
                 Event.settingsWrite "ask_for_update" "True"])
      else
        (.ok (latest, download_url, sha_url), st, evF)

/-- The embedding of `UpdateChecker._apply_channel_policy`. -/
def applyChannelPolicy (env : CheckEnv) (st : Settings) (latest : Version)
    (download_url sha_url : Option String) :
    Except Raised (Version × Option String × Option String) × Settings × List Event :=
  if st.update_channel = "rc" then
    handleBetaReleases env st latest download_url sha_url
  else
    (.ok (latest, download_url, sha_url), st, [])

/-- The embedding of `UpdateChecker._validate_required_assets`: `some r` = short-circuit
returning `r`; `none` = continue. -/
def validateRequiredAssets (st : Settings) (latest current : Version)
    (download_url sha_url : Option String) (force quiet : Bool) :
    Option CheckResult × List Event :=
  let verify := st.verify_sha = "True"
  if verify ∧ latest.gtb current ∧ sha_url = none then
    (some (.ver current), if force ∧ ¬quiet then [Event.showUpToDate] else [])
  else if latest.gtb current ∧ download_url = none then
    (some (.ver latest),
     if force ∧ ¬quiet then
       [Event.showUpdateErrorRetry "Installer asset not found for the latest release."]
     else [])
  else
    (none, [])

/-- The embedding of `UpdateChecker._update_settings_if_newer`; `Version.from_str` on the
stored `newest_version_available` string can raise. -/
def updateSettingsIfNewer (st : Settings) (latest : Version) :
    Except Raised (Settings × List Event) :=
  match Version.from_str st.newest_version_available with
  | none => .error .indexError
  | some stored =>
    if latest.gtb stored then
      .ok ({ st with ask_for_update := "True", newest_version_available := latest.str },
           [Event.settingsWrite "ask_for_update" "True",
            Event.settingsWrite "newest_version_available" latest.str])
    else
      .ok (st, [])

/-- The embedding of `UpdateChecker._should_prompt_user`. -/
def shouldPromptUser (st : Settings) (latest current : Version) (force : Bool) :
    Bool × List Event :=
  let p := latest.gtb current && (st.ask_for_update = "True" || force)
  (p, if ¬p = true ∧ force then [Event.showUpToDate] else [])

/-- The embedding of `UpdateChecker._handle_user_prompt`.  Kicking off the download pipeline is
recorded as a `startDownloadPipeline` event (the pipeline itself is modelled
separately by `download_and_run_installer`). -/
def handleUserPrompt (env : CheckEnv) (st : Settings) (latest : Version)
    (download_url sha_url : Option String) : Settings × List Event :=
  let ev0 := [Event.showUpdateAvailable latest]
  match env.updateAvailableChoice with
  | none => (st, ev0)  -- Cancel
  | some true =>
    let verify := st.verify_sha = "True"
    match download_url with
    | none =>
      (st, ev0 ++ [Event.showDownloadError "Installer asset not found in the selected release."])
    | some url =>
      (st, ev0 ++ [Event.startDownloadPipeline url (if verify then sha_url else none)])
  | some false =>
    if env.reminderChoice then
      ({ st with ask_for_update := "False" },
       ev0 ++ [Event.showUpdateReminderChoice, Event.settingsWrite "ask_for_update" "False"])
    else
      (st, ev0 ++ [Event.showUpdateReminderChoice])

mutual

/-- The embedding of `UpdateChecker.check_for_app_updates`.  `fuel` bounds the user-driven
retry recursion (Python's recursion is unbounded); all claims are settled on
runs that never exhaust it. -/
def check_for_app_updates (fuel : Nat) (env : CheckEnv) (st : Settings)
    (current : Version) (force quiet : Bool) :
    Except Raised CheckResult × Settings × List Event :=
  if force = false then
    match env.cacheLoad with
    | some (cacheTime, latestVersion) =>
      if env.now - cacheTime < st.update_cache_ttl_seconds then
        (.ok (.ver latestVersion), st, [Event.updateCallback])
      else
        checkMain fuel env st current force quiet []
    | none => checkMain fuel env st current force quiet []
  else
    -- forced: invalidate the releases cache, then fetch
    checkMain fuel env st current force quiet [Event.invalidateReleases]

/-- Tail of `check_for_app_updates` after the cache decision: live fetch,
conditional `save_update_cache`, then the version-update callback.  An
exception unwinding from the fetch skips both. -/
def checkMain (fuel : Nat) (env : CheckEnv) (st : Settings)
    (current : Version) (force quiet : Bool) (pre : List Event) :
    Except Raised CheckResult × Settings × List Event :=
  match getLatestVersionFromGithub fuel env st current force quiet with
  | (.error ex, st1, evs) => (.error ex, st1, pre ++ evs)
  | (.ok res, st1, evs) =>
    let evSave := match res with
      | .ver _ => [Event.cacheWriteUpdate]
      | .failedFalse => []
    (.ok res, st1, pre ++ evs ++ evSave ++ [Event.updateCallback])

/-- The embedding of `UpdateChecker._get_latest_version_from_github`. -/
def getLatestVersionFromGithub (fuel : Nat) (env : CheckEnv) (st : Settings)
    (current : Version) (force quiet : Bool) :
    Except Raised CheckResult × Settings × List Event :=
  let evF := [Event.httpGet GITHUB_LATEST_RELEASE]
  match env.latestRelease with
  | .error e =>
    match handleUpdateCheckException fuel env st e current force quiet with
    | (r, st1, evs) => (r, st1, evF ++ evs)
  | .ok rel =>
    match Version.from_str rel.tag_name with
    | none => (.error .indexError, st, evF)  -- unparsable tag: IndexError escapes
    | some latest0 =>
      let (dl0, sha0) := selectReleaseAssets rel.assets
      match applyChannelPolicy env st latest0 dl0 sha0 with
      | (.error ex, st1, evC) => (.error ex, st1, evF ++ evC)
      | (.ok (latest, dl, sha), st1, evC) =>
        match validateRequiredAssets st1 latest current dl sha force quiet with
        | (some shortCircuit, evV) => (.ok shortCircuit, st1, evF ++ evC ++ evV)
        | (none, evV) =>
          match updateSettingsIfNewer st1 latest with
          | .error ex => (.error ex, st1, evF ++ evC ++ evV)
          | .ok (st2, evU) =>
            if quiet then
              (.ok (.ver latest), st2, evF ++ evC ++ evV ++ evU)
            else
              match shouldPromptUser st2 latest current force with
              | (false, evP) =>
                (.ok (.ver latest), st2, evF ++ evC ++ evV ++ evU ++ evP)
              | (true, evP) =>
                match handleUserPrompt env st2 latest dl sha with
                | (st3, evH) =>
                  (.ok (.ver latest), st3, evF ++ evC ++ evV ++ evU ++ evP ++ evH)

/-- The embedding of `UpdateChecker._handle_update_check_exception`: in forced non-quiet mode
offer a retry dialog; acceptance re-invokes the whole check (with `quiet`
back at its default `False`); otherwise log and return the `False`
sentinel. -/
def handleUpdateCheckException (fuel : Nat) (env : CheckEnv) (st : Settings)
    (e : String) (current : Version) (force quiet : Bool) :
    Except Raised CheckResult × Settings × List Event :=
  if force = true ∧ quiet = false then
    let ev0 := [Event.showUpdateErrorRetry e]
    if env.retryChoice then
      match fuel with
      | 0 => (.ok .failedFalse, st, ev0)  -- fuel exhausted (modelling artifact)
      | n + 1 =>
        match check_for_app_updates n env st current force false with
        | (r, st1, evs) => (r, st1, ev0 ++ evs)
    else
      (.ok .failedFalse, st, ev0)
  else
    (.ok .failedFalse, st, [])

end

/-! ## Download / verify / launch pipeline (src/src/utils/updater.py)

Bytes are modelled as `Nat`s; the SHA-256 digest is an abstract function
`hash : List Nat → String` supplied by the environment (the claims quantify
over it). -/

/-- Outcome of `requests.get(url, stream=True)` + `raise_for_status()` for the
installer download.  `httpError` is `requests.exceptions.HTTPError` (non-2xx);
`transportError` is any other exception raised while downloading (connection
reset, timeout, ...), which the source handles in a separate branch. -/
inductive RespOutcome
  | ok (contentLength : Nat) (chunks : List (List Nat))
  | httpError (msg : String)
  | transportError (msg : String)
deriving Repr

structure DlEnv where
  resp : RespOutcome
  /-- The embedding of `is_download_cancelled()` polled once per chunk; argument = poll index. -/
  cancelledAt : Nat → Bool

/-- The chunk loop of `_download_with_progress`: for each chunk, poll the
cancellation flag (break when set), write the chunk, report its length to the
progress callback.  The wall-clock-throttled `update_download_status` calls
are elided: they carry no modelled observable.  Returns
`(cancelled, bytes written, events)`. -/
def dlLoop (cancelFlag : Nat → Bool) : List (List Nat) → Nat → Bool × List Nat × List Event
  | [], _ => (false, [], [])
  | c :: rest, i =>
    if cancelFlag i then (true, [], [])
    else
      match dlLoop cancelFlag rest (i + 1) with
      | (cancelled, written, evs) =>
        (cancelled, c ++ written, Event.progress c.length :: evs)

/-- The embedding of `UpdateChecker._download_with_progress`.  On success returns
`(cancelled, total_size)` plus the file bytes written; exceptions are returned
as `Raised`. -/
def downloadWithProgress (env : DlEnv) :
    Except Raised (Bool × Nat × List Nat) × List Event :=
  match env.resp with
  | .transportError m => (.error (.requestExn m), [])
  | .httpError m => (.error (.httpExn m), [])
  | .ok len chunks =>
    match dlLoop env.cancelledAt chunks 0 with
    | (cancelled, written, evs) =>
      (.ok (cancelled, len, written), Event.setupProgress len :: evs)

/-- Word character of the regex `\b` boundary (`[A-Za-z0-9_]`). -/
def isWordChar (c : Char) : Bool := c.isAlphanum || c = '_'

/-- Hex character of `[a-fA-F0-9]`. -/
def isHexChar (c : Char) : Bool :=
  c.isDigit || ('a' ≤ c ∧ c ≤ 'f') || ('A' ≤ c ∧ c ≤ 'F')

/-- Try to match `[a-fA-F0-9]{64}\b` at the start of `cs`. -/
def hexMatchHere (cs : List Char) : Option (List Char) :=
  let pre := cs.take 64
  if pre.length = 64 && pre.all isHexChar
     && !(((cs.drop 64).head?.map isWordChar).getD false) then
    some pre
  else
    none

/-- The embedding of `re.search(r"\b[a-fA-F0-9]{64}\b", text)`: scan left to right; at each
position whose left context is a word boundary, try the 64-hex match. -/
def findHex64From (prev : Option Char) : List Char → Option (List Char)
  | [] => none
  | c :: rest =>
    let boundary := match prev with
      | none => true
      | some p => !isWordChar p
    match if boundary then hexMatchHere (c :: rest) else none with
    | some m => some m
    | none => findHex64From (some c) rest

def findHex64 (text : String) : Option String :=
  (findHex64From none text.data).map (fun cs => String.mk cs)

/-- Environment for `_verify_sha256`: the `.sha256` HTTP response
(`.error` = `RequestException`), whether reading the installer file back
raises `OSError`, and the abstract SHA-256 hex function. -/
structure VerifyEnv where
  shaResp : Except String String
  fileReadError : Option String
  hash : List Nat → String

/-- The embedding of `UpdateChecker._verify_sha256`.  All failures are caught internally,
reported through `show_download_error`, and yield `false`. -/
def verifySha256 (venv : VerifyEnv) (fileBytes : List Nat) :
    Bool × List Event :=
  match venv.shaResp with
  | .error m => (false, [Event.showDownloadError m])
  | .ok text =>
    match findHex64 text with
    | none => (false, [Event.showDownloadError "Invalid .sha256 file format"])
    | some tok =>
      let expected := lowerData tok
      match venv.fileReadError with
      | some m => (false, [Event.showDownloadError m])
      | none =>
        let actual := lowerData (venv.hash fileBytes)
        if actual ≠ expected then
          (false, [Event.showDownloadError "Checksum mismatch. Downloaded file is corrupted."])
        else
          (true, [])

/-- The byte count carried by a `progress` event, if any. -/
def progressLen : Event → Option Nat
  | Event.progress n => some n
  | _ => none

/-- Bytes the GUI progress bar accumulated: the sum of all `progress` events
(`get_progress_value`). -/
def reportedBytes (evs : List Event) : Nat :=
  (evs.filterMap progressLen).sum

/-- The embedding of `UpdateChecker.download_and_run_installer`.  The result is `.ok ()` when
the call returns normally and `.error` when an exception escapes (the bare
`raise` in the generic `except` clause). -/
def download_and_run_installer (denv : DlEnv) (venv : VerifyEnv)
    (sha_url : Option String) : Except Raised Unit × List Event :=
  let ev0 := [Event.startDownloadUI]
  match downloadWithProgress denv with
  | (.error (.httpExn m), evs) =>
    -- except requests.exceptions.HTTPError: show_download_error; _safe_unlink; return
    (.ok (), ev0 ++ evs ++ [Event.showDownloadError m, Event.unlink])
  | (.error ex, evs) =>
    -- except Exception: log; _safe_unlink; raise
    (.error ex, ev0 ++ evs ++ [Event.unlink])
  | (.ok (cancelled, totalSize, fileBytes), evs) =>
    if cancelled then
      (.ok (), ev0 ++ evs ++ [Event.unlink])
    else
      -- size-mismatch check is log-only
      let evWarn :=
        if totalSize ≠ 0 ∧ reportedBytes evs ≠ totalSize then [Event.logSizeMismatch] else []
      let ev1 := ev0 ++ evs ++ evWarn ++ [Event.finishDownloadUI]
      match sha_url with
      | some _ =>
        match verifySha256 venv fileBytes with
        | (false, evV) => (.ok (), ev1 ++ evV ++ [Event.unlink])
        | (true, evV) =>
          (.ok (), ev1 ++ evV ++ [Event.closeApplication, Event.spawnInstaller])
      | none =>
        (.ok (), ev1 ++ [Event.closeApplication, Event.spawnInstaller])

/-! ## In-flight check guard

The repository's tests (src/tests/utils/test_updater_ext.py) exercise an
`_active_check` guard on `UpdateChecker.check_for_app_updates`, but the
implementation of that guard is not present in the provided updater source;
it is modelled here from the specification. -/

/-- Modelled from the spec: the `_active_check` in-flight guard of
`UpdateChecker.check_for_app_updates` is missing from the provided sources
(only its tests exist).  Per the spec: if a check is already in flight, return
the cached "newest known" version immediately rather than queuing or blocking
(no network access, no cache mutation, guard left as-is); otherwise take the
guard, run the check body, and release the guard in a `finally`-equivalent on
every exit path, including exceptional ones.  `body` is the outcome and event
trace the guarded check body would produce. -/
def checkWithGuard (activeCheck : Bool) (newestKnown : Version)
    (body : Except Raised CheckResult × List Event) :
    Except Raised CheckResult × Bool × List Event :=
  if activeCheck then
    (.ok (.ver newestKnown), activeCheck, [])
  else
    -- guard set to true, body runs, guard released in `finally`
    (body.1, false, body.2)

/-! ## Theorems -/

/-! ### C5: the Version ordering -/

theorem version_ltb_trans (a b c : Version) (h1 : a.ltb b = true)
    (h2 : b.ltb c = true) : a.ltb c = true := by
  obtain ⟨a1, a2, a3, ar⟩ := a
  obtain ⟨b1, b2, b3, br⟩ := b
  obtain ⟨c1, c2, c3, cr⟩ := c
  simp only [Version.ltb, decide_eq_true_eq] at h1 h2 ⊢
  rcases ar with _ | ar <;> rcases br with _ | br <;> rcases cr with _ | cr <;>
    simp only [rcKey] at h1 h2 ⊢ <;> omega

theorem version_trichotomy (a b : Version) :
    (a.ltb b = true ∧ a.eqb b = false ∧ a.gtb b = false) ∨
    (a.ltb b = false ∧ a.eqb b = true ∧ a.gtb b = false) ∨
    (a.ltb b = false ∧ a.eqb b = false ∧ a.gtb b = true) := by
  obtain ⟨a1, a2, a3, ar⟩ := a
  obtain ⟨b1, b2, b3, br⟩ := b
  simp only [Version.ltb, Version.gtb, Version.eqb, Version.mk.injEq,
    decide_eq_true_eq, decide_eq_false_iff_not, not_or, not_and, not_lt]
  rcases ar with _ | ar <;> rcases br with _ | br <;>
    simp only [rcKey, Option.some.injEq, reduceCtorEq, and_false, and_true,
      not_false_iff, iff_true, iff_false, not_and, not_or, not_lt,
      implies_true, true_implies, true_and, false_and, or_false, false_or,
      not_true, not_false_eq_true] <;>
    omega

/-- C5: `Version` comparison is the lexicographic total order over
`(major, minor, patch, rc-or-sentinel)` with an absent `rc` strictly below
any present one: `<` is transitive, `==` is reflexive, exactly one of
`<`, `==`, `>` holds for any pair, and
`Version.from_str "1.0.0" < Version.from_str "1.0.0-rc1"`. -/
theorem C5_version_total_order :
    (∀ a b c : Version, a.ltb b = true → b.ltb c = true → a.ltb c = true) ∧
    (∀ a : Version, a.eqb a = true) ∧
    (∀ a b : Version,
      (a.ltb b = true ∧ a.eqb b = false ∧ a.gtb b = false) ∨
      (a.ltb b = false ∧ a.eqb b = true ∧ a.gtb b = false) ∨
      (a.ltb b = false ∧ a.eqb b = false ∧ a.gtb b = true)) ∧
    Version.from_str "1.0.0" = some ⟨1, 0, 0, none⟩ ∧
    Version.from_str "1.0.0-rc1" = some ⟨1, 0, 0, some 1⟩ ∧
    Version.ltb ⟨1, 0, 0, none⟩ ⟨1, 0, 0, some 1⟩ = true :=
  ⟨version_ltb_trans,
   fun a => by simp [Version.eqb],
   version_trichotomy,
   by decide, by decide, by decide⟩

theorem C5_version_total_order_witness :
    Version.ltb ⟨1, 2, 3, none⟩ ⟨2, 0, 0, some 1⟩ = true :=
  C5_version_total_order.1 ⟨1, 2, 3, none⟩ ⟨1, 5, 0, none⟩ ⟨2, 0, 0, some 1⟩
    (by decide) (by decide)

/-! ### C4: asset selection tie-break -/

theorem selectStep_fst_of_not_exe (acc : Option String × Option String)
    (a : Asset) (h : exeMatch a = false) : (selectStep acc a).1 = acc.1 := by
  simp only [selectStep, exeMatch] at *
  rw [if_neg (by simp [h])]
  split <;> rfl

theorem selectStep_snd_of_not_sha (acc : Option String × Option String)
    (a : Asset) (h : shaMatch a = false) : (selectStep acc a).2 = acc.2 := by
  simp only [selectStep, shaMatch, Bool.and_eq_false_iff, Bool.not_eq_false'] at h
  rcases h with h | h
  · simp only [selectStep, h, if_true, if_pos]
  · by_cases he : nameEndsWith a.name ".exe"
    · simp [selectStep, he]
    · simp [selectStep, he, h]

theorem foldl_select_fst (l : List Asset) (acc : Option String × Option String)
    (h : ∀ b ∈ l, exeMatch b = false) :
    (l.foldl selectStep acc).1 = acc.1 := by
  induction l generalizing acc with
  | nil => rfl
  | cons b t ih =>
    rw [List.foldl_cons, ih _ (fun x hx => h x (List.mem_cons_of_mem _ hx)),
      selectStep_fst_of_not_exe _ _ (h b (List.mem_cons_self _ _))]

theorem foldl_select_snd (l : List Asset) (acc : Option String × Option String)
    (h : ∀ b ∈ l, shaMatch b = false) :
    (l.foldl selectStep acc).2 = acc.2 := by
  induction l generalizing acc with
  | nil => rfl
  | cons b t ih =>
    rw [List.foldl_cons, ih _ (fun x hx => h x (List.mem_cons_of_mem _ hx)),
      selectStep_snd_of_not_sha _ _ (h b (List.mem_cons_self _ _))]

/-- A release with two `.exe` and two `.sha256` assets. -/
def dupAssets : List Asset :=
  [⟨"a.exe", some "u1"⟩, ⟨"b.exe", some "u2"⟩,
   ⟨"a.exe.sha256", some "s1"⟩, ⟨"b.exe.sha256", some "s2"⟩]

/-- C4 counterexample: on a release with duplicate matching assets the source
selection disagrees with the spec's "first match wins" rule — it returns the
last matching asset for each slot. -/
theorem C4_first_match_counterexample :
    selectReleaseAssets dupAssets ≠ selectAssetsFirstMatchSpec dupAssets ∧
    selectReleaseAssets dupAssets = (some "u2", some "s2") ∧
    selectAssetsFirstMatchSpec dupAssets = (some "u1", some "s1") := by
  refine ⟨?_, by decide, by decide⟩
  decide

/-- C4 (amended): with duplicate matching assets, `_select_release_assets`
chooses the **last** matching asset in list order for each of the two slots,
and at most one of each is chosen. -/
theorem C4_last_match_wins :
    (∀ (l₁ l₂ : List Asset) (a : Asset), exeMatch a = true →
      (∀ b ∈ l₂, exeMatch b = false) →
      (selectReleaseAssets (l₁ ++ a :: l₂)).1 = a.browser_download_url) ∧
    (∀ (l₁ l₂ : List Asset) (a : Asset), shaMatch a = true →
      (∀ b ∈ l₂, shaMatch b = false) →
      (selectReleaseAssets (l₁ ++ a :: l₂)).2 = a.browser_download_url) := by
  constructor
  · intro l₁ l₂ a ha hl₂
    rw [selectReleaseAssets, List.foldl_append, List.foldl_cons,
      foldl_select_fst _ _ hl₂]
    simp only [selectStep]
    rw [if_pos]
    simpa [exeMatch] using ha
  · intro l₁ l₂ a ha hl₂
    rw [selectReleaseAssets, List.foldl_append, List.foldl_cons,
      foldl_select_snd _ _ hl₂]
    simp only [shaMatch, Bool.and_eq_true, Bool.not_eq_true'] at ha
    simp only [selectStep]
    rw [if_neg (by simp [ha.1]), if_pos ha.2]

theorem C4_last_match_wins_witness :
    (selectReleaseAssets dupAssets).1 = some "u2" :=
  C4_last_match_wins.1 [⟨"a.exe", some "u1"⟩] [⟨"a.exe.sha256", some "s1"⟩, ⟨"b.exe.sha256", some "s2"⟩]
    ⟨"b.exe", some "u2"⟩ (by decide) (by decide)

/-! ### C6: `load_update_cache` corruption handling -/

/-- A timestamp parser that rejects its input, for concrete runs where the
stored `fetched_at` is malformed. -/
def isoRejecting : String → Option Int := fun _ => none

/-- A cache file whose content is valid JSON with a malformed timestamp. -/
def malformedTsFile : Option JsonOutcome :=
  some (.obj (some "garbage") (some "1.0.0"))

/-- C6 counterexample: on a cache file that is valid JSON but has a malformed
`fetched_at`, `load_update_cache` returns `(none, none)` yet leaves the file
untouched — it is **not** rewritten with the sentinel payload, contrary to the
claim. -/
theorem C6_counterexample :
    (load_update_cache isoRejecting malformedTsFile true).result = .ok (none, none) ∧
    (load_update_cache isoRejecting malformedTsFile true).fileAfter = malformedTsFile ∧
    malformedTsFile ≠ some sentinelObj := by
  refine ⟨rfl, rfl, by decide⟩

/-- C6 (amended): `load_update_cache` returns `(none, none)` when the file is
absent, unreadable/not-JSON, or has a malformed timestamp; the file is
rewritten in place with the sentinel payload only in the unreadable/not-JSON
case (and is never deleted, even when the rewrite itself fails); failures at
those stages do not propagate — but when the timestamp is valid and the
`latest_version` field is missing or unparsable, the exception escapes to the
caller. -/
theorem C6_load_cache_amended :
    (∀ iso w, load_update_cache iso none w = ⟨.ok (none, none), none⟩) ∧
    (∀ iso, load_update_cache iso (some .invalid) true =
      ⟨.ok (none, none), some sentinelObj⟩) ∧
    (∀ iso w, (load_update_cache iso (some .invalid) w).fileAfter ≠ none) ∧
    (∀ iso w lv, load_update_cache iso (some (.obj none lv)) w =
      ⟨.ok (none, none), some (.obj none lv)⟩) ∧
    (∀ iso w lv s, iso s = none →
      load_update_cache iso (some (.obj (some s) lv)) w =
        ⟨.ok (none, none), some (.obj (some s) lv)⟩) ∧
    (∀ iso w s t, iso s = some t →
      (load_update_cache iso (some (.obj (some s) none)) w).result =
        .error .keyError) ∧
    (∀ iso w s t vs, iso s = some t → Version.from_str vs = none →
      (load_update_cache iso (some (.obj (some s) (some vs))) w).result =
        .error .indexError) := by
  refine ⟨fun iso w => rfl, fun iso => rfl, ?_, fun iso w lv => rfl, ?_, ?_, ?_⟩
  · intro iso w
    cases w <;> simp [load_update_cache]
  · intro iso w lv s h
    simp [load_update_cache, h]
  · intro iso w s t h
    simp [load_update_cache, h]
  · intro iso w s t vs h hv
    simp [load_update_cache, h, hv]

theorem C6_load_cache_amended_witness :
    load_update_cache isoRejecting malformedTsFile true =
      ⟨.ok (none, none), malformedTsFile⟩ :=
  C6_load_cache_amended.2.2.2.2.1 isoRejecting true (some "1.0.0") "garbage" rfl

/-! ### C10: rc channel with no prereleases writes settings unconditionally -/

/-- C10: when the channel is `rc` and the fetched release list has no
prerelease, `_handle_beta_releases` writes `newest_version_available` (to the
stable latest) and `ask_for_update = "True"` unconditionally — for every prior
settings state, including one whose recorded newest-available is not older and
one where prompts were suppressed.  By contrast, `_update_settings_if_newer`
(the non-rc bookkeeping) writes the two keys only when the candidate is
strictly newer than the recorded newest-available. -/
theorem C10_rc_unconditional_settings_write :
    (∀ env st latest dl sha, env.allReleases.filter (·.prerelease) = [] →
      handleBetaReleases env st latest dl sha =
        (.ok (latest, dl, sha),
         { st with newest_version_available := latest.str, ask_for_update := "True" },
         [Event.httpGet GITHUB_RELEASES,
          Event.settingsWrite "newest_version_available" latest.str,
          Event.settingsWrite "ask_for_update" "True"])) ∧
    (∀ st latest stored, Version.from_str st.newest_version_available = some stored →
      latest.gtb stored = false →
      updateSettingsIfNewer st latest = .ok (st, [])) ∧
    (∀ st latest stored, Version.from_str st.newest_version_available = some stored →
      latest.gtb stored = true →
      updateSettingsIfNewer st latest =
        .ok ({ st with ask_for_update := "True", newest_version_available := latest.str },
             [Event.settingsWrite "ask_for_update" "True",
              Event.settingsWrite "newest_version_available" latest.str])) := by
  refine ⟨?_, ?_, ?_⟩
  · intro env st latest dl sha h
    simp [handleBetaReleases, h]
  · intro st latest stored h hgt
    simp [updateSettingsIfNewer, h, hgt]
  · intro st latest stored h hgt
    simp [updateSettingsIfNewer, h, hgt]

/-- Settings state used in concrete runs. -/
def stRC : Settings :=
  { update_channel := "rc", verify_sha := "True", ask_for_update := "False",
    newest_version_available := "9.9.9", update_cache_ttl_seconds := 86400 }

/-- Environment with an empty prerelease list. -/
def envNoPre : CheckEnv :=
  { now := 0, cacheLoad := none,
    latestRelease := .ok ⟨"1.2.0", false, []⟩, allReleases := [⟨"1.2.0", false, []⟩],
    updateAvailableChoice := none, reminderChoice := false, retryChoice := false }

theorem C10_rc_unconditional_settings_write_witness :
    handleBetaReleases envNoPre stRC ⟨1, 2, 0, none⟩ none none =
      (.ok (⟨1, 2, 0, none⟩, none, none),
       { stRC with newest_version_available := Version.str ⟨1, 2, 0, none⟩,
                   ask_for_update := "True" },
       [Event.httpGet GITHUB_RELEASES,
        Event.settingsWrite "newest_version_available" (Version.str ⟨1, 2, 0, none⟩),
        Event.settingsWrite "ask_for_update" "True"]) :=
  C10_rc_unconditional_settings_write.1 envNoPre stRC ⟨1, 2, 0, none⟩ none none rfl

/-! ### C3: at-most-one-active-check guard (modelled from the spec) -/

/-- C3: while a check is in flight, a concurrent `check_for_app_updates` call
returns the cached newest-known version immediately, with no events (no
queuing or blocking, no network access, no cache mutation) and the guard left
as-is; and for a call that does run, the guard is released on every exit path
of the body, including exceptional ones. -/
theorem C3_active_check_guard :
    (∀ (nk : Version) (body : Except Raised CheckResult × List Event),
      checkWithGuard true nk body = (.ok (.ver nk), true, [])) ∧
    (∀ (nk : Version) (body : Except Raised CheckResult × List Event),
      (checkWithGuard false nk body).2.1 = false) ∧
    (∀ (nk : Version) (body : Except Raised CheckResult × List Event),
      (checkWithGuard false nk body).1 = body.1) :=
  ⟨fun _ _ => rfl, fun _ _ => rfl, fun _ _ => rfl⟩

/-! ### C8: fresh cache hit short-circuits the network -/

/-- C8: with `force_check = False` and a cache entry within TTL, the check
performs no HTTP request, no cache write and no cache invalidation, leaves the
settings untouched, invokes the version-update callback, and returns the
cached version. -/
theorem C8_cache_hit_short_circuit (fuel : Nat) (env : CheckEnv) (st : Settings)
    (current : Version) (quiet : Bool) (t : Int) (lv : Version)
    (hc : env.cacheLoad = some (t, lv))
    (hf : env.now - t < st.update_cache_ttl_seconds) :
    (check_for_app_updates fuel env st current false quiet).1 = .ok (.ver lv) ∧
    (check_for_app_updates fuel env st current false quiet).2.1 = st ∧
    (check_for_app_updates fuel env st current false quiet).2.2 = [Event.updateCallback] ∧
    (∀ u, Event.httpGet u ∉ (check_for_app_updates fuel env st current false quiet).2.2) ∧
    Event.cacheWriteUpdate ∉ (check_for_app_updates fuel env st current false quiet).2.2 ∧
    Event.invalidateReleases ∉ (check_for_app_updates fuel env st current false quiet).2.2 ∧
    Event.updateCallback ∈ (check_for_app_updates fuel env st current false quiet).2.2 := by
  have hrun : check_for_app_updates fuel env st current false quiet =
      (.ok (.ver lv), st, [Event.updateCallback]) := by
    unfold check_for_app_updates
    simp [hc, hf]
  rw [hrun]
  simp

/-- Concrete fresh-cache environment. -/
def envFresh : CheckEnv :=
  { now := 100, cacheLoad := some (50, ⟨1, 2, 0, none⟩),
    latestRelease := .error "offline", allReleases := [],
    updateAvailableChoice := none, reminderChoice := false, retryChoice := false }

theorem C8_cache_hit_short_circuit_witness :
    (check_for_app_updates 0 envFresh stRC ⟨1, 0, 0, none⟩ false false).1 =
      .ok (.ver ⟨1, 2, 0, none⟩) :=
  (C8_cache_hit_short_circuit 0 envFresh stRC ⟨1, 0, 0, none⟩ false 50 ⟨1, 2, 0, none⟩
    rfl (by decide)).1

/-! ### Download-loop lemmas -/

theorem dlLoop_no_cancel (flag : Nat → Bool) (hflag : ∀ j, flag j = false) :
    ∀ (chunks : List (List Nat)) (k : Nat),
      dlLoop flag chunks k =
        (false, chunks.join, chunks.map fun c => Event.progress c.length) := by
  intro chunks
  induction chunks with
  | nil => intro k; rfl
  | cons c rest ih =>
    intro k
    simp [dlLoop, hflag k, ih (k + 1)]

theorem dlLoop_cancel (flag : Nat → Bool) :
    ∀ (N : Nat) (chunks : List (List Nat)) (k : Nat),
      (∀ i, i < N → flag (k + i) = false) → flag (k + N) = true →
      N < chunks.length →
      dlLoop flag chunks k =
        (true, (chunks.take N).join,
         (chunks.take N).map fun c => Event.progress c.length) := by
  intro N
  induction N with
  | zero =>
    intro chunks k _ hN hlen
    cases chunks with
    | nil => simp at hlen
    | cons c rest =>
      have hk : flag k = true := by simpa using hN
      simp [dlLoop, hk]
  | succ n ih =>
    intro chunks k h0 hN hlen
    cases chunks with
    | nil => simp at hlen
    | cons c rest =>
      have hk : flag k = false := by simpa using h0 0 (Nat.succ_pos n)
      have harg : k + 1 + n = k + (n + 1) := by omega
      have ih' := ih rest (k + 1)
        (fun i hi => by
          have h := h0 (i + 1) (Nat.succ_lt_succ hi)
          have : k + 1 + i = k + (i + 1) := by omega
          rw [this]
          exact h)
        (by rw [harg]; exact hN)
        (by simpa using Nat.lt_of_succ_lt_succ hlen)
      simp [dlLoop, hk, ih']

theorem filterMap_progress (l : List (List Nat)) :
    List.filterMap progressLen (l.map fun c => Event.progress c.length) =
      l.map List.length := by
  induction l with
  | nil => rfl
  | cons c t ih => simp [progressLen, ih]

/-! ### C9: cancellation mid-download -/

/-- C9: when the cancellation flag first reads true at poll `N` (the first `N`
polls read false) and `N` is below the chunk count, the bytes reported to the
progress callback are exactly the total size of the first `N` chunks, the
partial temp file is deleted, no error is surfaced, no exception escapes, and
the installer is never launched. -/
theorem C9_cancellation_mid_download (denv : DlEnv) (venv : VerifyEnv)
    (su : Option String) (len N : Nat) (chunks : List (List Nat))
    (hresp : denv.resp = .ok len chunks)
    (hlt : N < chunks.length)
    (hflag : ∀ i, i < N → denv.cancelledAt i = false)
    (hflagN : denv.cancelledAt N = true) :
    (download_and_run_installer denv venv su).1 = .ok () ∧
    reportedBytes (download_and_run_installer denv venv su).2 =
      ((chunks.take N).map List.length).sum ∧
    Event.unlink ∈ (download_and_run_installer denv venv su).2 ∧
    Event.spawnInstaller ∉ (download_and_run_installer denv venv su).2 ∧
    (∀ m, Event.showDownloadError m ∉ (download_and_run_installer denv venv su).2) := by
  have hdl := dlLoop_cancel denv.cancelledAt N chunks 0
    (fun i hi => by simpa using hflag i hi) (by simpa using hflagN) hlt
  have hdwp : downloadWithProgress denv =
      (.ok (true, len, (chunks.take N).join),
       Event.setupProgress len ::
         ((chunks.take N).map fun c => Event.progress c.length)) := by
    unfold downloadWithProgress
    rw [hresp]
    simp [hdl]
  have hrun : download_and_run_installer denv venv su =
      (.ok (), Event.startDownloadUI :: Event.setupProgress len ::
        (((chunks.take N).map fun c => Event.progress c.length) ++ [Event.unlink])) := by
    unfold download_and_run_installer
    rw [hdwp]
    simp
  rw [hrun]
  refine ⟨rfl, ?_, by simp, ?_, ?_⟩
  · simp only [reportedBytes, List.filterMap_cons, List.filterMap_append,
      filterMap_progress, progressLen]
    simp
  · simp only [List.mem_cons, List.mem_append, List.mem_map, List.mem_singleton]
    push_neg
    exact ⟨by simp, by simp, fun c _ => by simp, by simp⟩
  · intro m
    simp only [List.mem_cons, List.mem_append, List.mem_map, List.mem_singleton]
    push_neg
    exact ⟨by simp, by simp, fun c _ => by simp, by simp⟩

def denvCancel : DlEnv :=
  { resp := .ok 10 [[1, 2, 3], [4, 5], [6]], cancelledAt := fun i => decide (2 ≤ i) }

def venvIdle : VerifyEnv :=
  { shaResp := .ok "", fileReadError := none, hash := fun _ => "" }

theorem C9_cancellation_mid_download_witness :
    reportedBytes (download_and_run_installer denvCancel venvIdle none).2 = 5 :=
  (C9_cancellation_mid_download denvCancel venvIdle none 10 2 [[1, 2, 3], [4, 5], [6]]
    rfl (by decide) (fun i hi => by interval_cases i <;> rfl) rfl).2.1

/-! ### C2: checksum verification outcome -/

theorem count_spawn_progress_map (l : List (List Nat)) :
    (l.map fun c => Event.progress c.length).count Event.spawnInstaller = 0 := by
  induction l with
  | nil => rfl
  | cons c t ih => simp [List.count_cons, ih]

/-- Shared setup for an uncancelled, successful download: the concrete shape
of the pipeline's event trace before the verification step. -/
theorem download_ok_shape (denv : DlEnv) (venv : VerifyEnv) (su : Option String)
    (len : Nat) (chunks : List (List Nat))
    (hresp : denv.resp = .ok len chunks)
    (hnc : ∀ i, denv.cancelledAt i = false) :
    download_and_run_installer denv venv su =
      (let evs := Event.setupProgress len ::
          (chunks.map fun c => Event.progress c.length)
       let evWarn := if len ≠ 0 ∧ reportedBytes evs ≠ len then [Event.logSizeMismatch] else []
       let ev1 := Event.startDownloadUI :: evs ++ evWarn ++ [Event.finishDownloadUI]
       match su with
       | some _ =>
         match verifySha256 venv chunks.join with
         | (false, evV) => (.ok (), ev1 ++ evV ++ [Event.unlink])
         | (true, evV) =>
           (.ok (), ev1 ++ evV ++ [Event.closeApplication, Event.spawnInstaller])
       | none => (.ok (), ev1 ++ [Event.closeApplication, Event.spawnInstaller])) := by
  have hdwp : downloadWithProgress denv =
      (.ok (false, len, chunks.join),
       Event.setupProgress len :: (chunks.map fun c => Event.progress c.length)) := by
    unfold downloadWithProgress
    rw [hresp]
    simp [dlLoop_no_cancel denv.cancelledAt hnc]
  unfold download_and_run_installer
  rw [hdwp]
  simp only []
  cases su <;> rcases hv : verifySha256 venv chunks.join with ⟨ok, evV⟩ <;>
    cases ok <;> simp

/-- C2: with a checksum URL supplied and an uncancelled download, the first
64-hex token of the checksum body is compared case-insensitively against the
digest of the downloaded bytes.  On mismatch a checksum-mismatch error is
surfaced via `show_download_error`, the temp file is deleted, and the
installer is never launched; on match the installer launch happens exactly
once. -/
theorem C2_checksum_verification (denv : DlEnv) (venv : VerifyEnv) (su : String)
    (len : Nat) (chunks : List (List Nat)) (body tok : String)
    (hresp : denv.resp = .ok len chunks)
    (hnc : ∀ i, denv.cancelledAt i = false)
    (hsha : venv.shaResp = .ok body)
    (htok : findHex64 body = some tok)
    (hfr : venv.fileReadError = none) :
    (lowerData (venv.hash chunks.join) ≠ lowerData tok →
      (download_and_run_installer denv venv (some su)).1 = .ok () ∧
      Event.showDownloadError "Checksum mismatch. Downloaded file is corrupted." ∈
        (download_and_run_installer denv venv (some su)).2 ∧
      Event.unlink ∈ (download_and_run_installer denv venv (some su)).2 ∧
      Event.spawnInstaller ∉ (download_and_run_installer denv venv (some su)).2) ∧
    (lowerData (venv.hash chunks.join) = lowerData tok →
      (download_and_run_installer denv venv (some su)).1 = .ok () ∧
      (download_and_run_installer denv venv (some su)).2.count Event.spawnInstaller = 1 ∧
      Event.unlink ∉ (download_and_run_installer denv venv (some su)).2) := by
  have hshape := download_ok_shape denv venv (some su) len chunks hresp hnc
  constructor
  · intro hne
    have hver : verifySha256 venv chunks.join =
        (false, [Event.showDownloadError "Checksum mismatch. Downloaded file is corrupted."]) := by
      unfold verifySha256
      rw [hsha]
      simp [htok, hfr, hne]
    rw [hshape]
    simp only [hver]
    refine ⟨by simp, by simp, by simp, ?_⟩
    split_ifs <;> simp
  · intro heq
    have hver : verifySha256 venv chunks.join = (true, []) := by
      unfold verifySha256
      rw [hsha]
      simp [htok, hfr, heq]
    rw [hshape]
    simp only [hver]
    refine ⟨by simp, ?_, ?_⟩
    · split_ifs <;>
        simp [List.count_cons, List.count_append, count_spawn_progress_map]
    · split_ifs <;> simp

/-- A 64-character hex body used for concrete checksum runs. -/
def hex64Body : String :=
  "aaaaaaaaaaaaaaaaaaaaaaaaaaaaaaaaaaaaaaaaaaaaaaaaaaaaaaaaaaaaaaaa"

def denvOk : DlEnv :=
  { resp := .ok 0 [[1, 2], [3]], cancelledAt := fun _ => false }

def venvMatch : VerifyEnv :=
  { shaResp := .ok hex64Body, fileReadError := none, hash := fun _ => hex64Body }

theorem C2_checksum_verification_witness :
    (download_and_run_installer denvOk venvMatch (some "sha")).2.count
      Event.spawnInstaller = 1 :=
  ((C2_checksum_verification denvOk venvMatch "sha" 0 [[1, 2], [3]] hex64Body hex64Body
    rfl (fun _ => rfl) rfl (by decide) rfl).2 rfl).2.1

/-! ### C7: network failures in the download pipeline -/

def denvTransport : DlEnv :=
  { resp := .transportError "connection reset", cancelledAt := fun _ => false }

def venvIdle2 : VerifyEnv :=
  { shaResp := .ok "", fileReadError := none, hash := fun _ => "" }

/-- C7 counterexample: a transport-level failure (a `RequestException` that is
not an `HTTPError`) during the installer download is **not** surfaced through
`show_download_error`; the temp file is deleted and the exception is re-raised
out of the pipeline. -/
theorem C7_counterexample :
    (download_and_run_installer denvTransport venvIdle2 (some "sha")).1 =
      .error (.requestExn "connection reset") ∧
    Event.showDownloadError "connection reset" ∉
      (download_and_run_installer denvTransport venvIdle2 (some "sha")).2 := by
  refine ⟨rfl, ?_⟩
  decide

/-- C7 (amended): an HTTP-status failure (`HTTPError`) on the installer
download and any `RequestException` on the checksum fetch are surfaced through
`show_download_error` with the temp file removed and no exception escaping;
but any other exception during the installer download — including transport
errors such as connection resets — deletes the temp file and re-raises,
escaping the pipeline without a `show_download_error`. -/
theorem C7_download_error_paths :
    (∀ (denv : DlEnv) (venv : VerifyEnv) (su : Option String) (m : String),
      denv.resp = .httpError m →
      download_and_run_installer denv venv su =
        (.ok (), [Event.startDownloadUI, Event.showDownloadError m, Event.unlink])) ∧
    (∀ (denv : DlEnv) (venv : VerifyEnv) (su : Option String) (m : String),
      denv.resp = .transportError m →
      download_and_run_installer denv venv su =
        (.error (.requestExn m), [Event.startDownloadUI, Event.unlink])) ∧
    (∀ (denv : DlEnv) (venv : VerifyEnv) (su : String) (len : Nat)
       (chunks : List (List Nat)) (m : String),
      denv.resp = .ok len chunks → (∀ i, denv.cancelledAt i = false) →
      venv.shaResp = .error m →
      (download_and_run_installer denv venv (some su)).1 = .ok () ∧
      Event.showDownloadError m ∈ (download_and_run_installer denv venv (some su)).2 ∧
      Event.unlink ∈ (download_and_run_installer denv venv (some su)).2 ∧
      Event.spawnInstaller ∉ (download_and_run_installer denv venv (some su)).2) := by
  refine ⟨?_, ?_, ?_⟩
  · intro denv venv su m h
    unfold download_and_run_installer downloadWithProgress
    rw [h]
    rfl
  · intro denv venv su m h
    unfold download_and_run_installer downloadWithProgress
    rw [h]
    rfl
  · intro denv venv su len chunks m hresp hnc hsha
    have hver : verifySha256 venv chunks.join = (false, [Event.showDownloadError m]) := by
      unfold verifySha256
      rw [hsha]
    rw [download_ok_shape denv venv (some su) len chunks hresp hnc]
    simp only [hver]
    refine ⟨by simp, by simp, by simp, ?_⟩
    split_ifs <;> simp

theorem C7_download_error_paths_witness :
    download_and_run_installer
      ⟨.httpError "404 Client Error", fun _ => false⟩ venvIdle2 none =
      (.ok (), [Event.startDownloadUI, Event.showDownloadError "404 Client Error",
                Event.unlink]) :=
  C7_download_error_paths.1 ⟨.httpError "404 Client Error", fun _ => false⟩
    venvIdle2 none "404 Client Error" rfl

/-! ### C1: SHA suppression policy -/

/-- Events that constitute "offering an update": the update prompt and the
kick-off of the download pipeline. -/
def isOfferEvent : Event → Bool
  | Event.showUpdateAvailable _ => true
  | Event.startDownloadPipeline _ _ => true
  | _ => false

theorem handleBetaReleases_no_offer (env : CheckEnv) (st : Settings)
    (latest : Version) (dl sha : Option String) :
    ∀ e ∈ (handleBetaReleases env st latest dl sha).2.2, isOfferEvent e = false := by
  intro e he
  rcases hfil : env.allReleases.filter (·.prerelease) with _ | ⟨pre, rest⟩
  · simp [handleBetaReleases, hfil] at he
    rcases he with h | h | h <;> subst h <;> rfl
  · rcases hv : Version.from_str pre.tag_name with _ | preV
    · simp [handleBetaReleases, hfil, hv] at he
      subst he; rfl
    · by_cases hgt : preV.gtb latest = true
      · rcases hsel : selectReleaseAssets pre.assets with ⟨exeU, shaPre⟩
        simp [handleBetaReleases, hfil, hv, hgt, hsel] at he
        rcases he with h | h | h <;> subst h <;> rfl
      · simp [handleBetaReleases, hfil, hv, hgt] at he
        subst he; rfl

theorem applyChannelPolicy_no_offer (env : CheckEnv) (st : Settings)
    (latest : Version) (dl sha : Option String) :
    ∀ e ∈ (applyChannelPolicy env st latest dl sha).2.2, isOfferEvent e = false := by
  intro e he
  unfold applyChannelPolicy at he
  split at he
  · exact handleBetaReleases_no_offer env st latest dl sha e he
  · simp at he

/-- C1: whenever `verify_sha` is `"True"`, the (post-channel-policy) candidate
version is strictly newer than `current_version`, and the selected release
carries no `.sha256` asset, `check_for_app_updates` returns `current_version`
unchanged, shows the up-to-date notice exactly when the check was forced and
not quiet, and never offers the update (no update prompt, no download
kick-off). -/
theorem C1_sha_suppression (fuel : Nat) (env : CheckEnv) (st st1 : Settings)
    (current L0 L : Version) (dl : Option String) (evC : List Event)
    (rel : ReleaseInfo) (force quiet : Bool)
    (hmiss : force = true ∨ env.cacheLoad = none ∨
      ∀ t lv, env.cacheLoad = some (t, lv) →
        ¬(env.now - t < st.update_cache_ttl_seconds))
    (hrel : env.latestRelease = .ok rel)
    (htag : Version.from_str rel.tag_name = some L0)
    (hchan : applyChannelPolicy env st L0 (selectReleaseAssets rel.assets).1
        (selectReleaseAssets rel.assets).2 = (.ok (L, dl, none), st1, evC))
    (hv : st1.verify_sha = "True")
    (hgt : L.gtb current = true) :
    (check_for_app_updates fuel env st current force quiet).1 = .ok (.ver current) ∧
    (force = true → quiet = false →
      Event.showUpToDate ∈ (check_for_app_updates fuel env st current force quiet).2.2) ∧
    ∀ e ∈ (check_for_app_updates fuel env st current force quiet).2.2,
      isOfferEvent e = false := by
  have hval : validateRequiredAssets st1 L current dl none force quiet =
      (some (.ver current),
       if force = true ∧ ¬quiet = true then [Event.showUpToDate] else []) := by
    unfold validateRequiredAssets
    rw [if_pos ⟨hv, hgt, rfl⟩]
  have hnoC : ∀ e ∈ evC, isOfferEvent e = false := by
    have h := applyChannelPolicy_no_offer env st L0
      (selectReleaseAssets rel.assets).1 (selectReleaseAssets rel.assets).2
    rw [hchan] at h
    exact h
  have hget : getLatestVersionFromGithub fuel env st current force quiet =
      (.ok (.ver current), st1,
       [Event.httpGet GITHUB_LATEST_RELEASE] ++ evC ++
         (if force = true ∧ ¬quiet = true then [Event.showUpToDate] else [])) := by
    rcases hsel : selectReleaseAssets rel.assets with ⟨dl0, sha0⟩
    have hchan2 : applyChannelPolicy env st L0 dl0 sha0 =
        (.ok (L, dl, none), st1, evC) := by
      rw [hsel] at hchan
      exact hchan
    unfold getLatestVersionFromGithub
    rw [hrel]
    simp only [htag, hsel, hchan2, hval]
  have hmain : ∀ pre : List Event, checkMain fuel env st current force quiet pre =
      (.ok (.ver current), st1,
       pre ++ ([Event.httpGet GITHUB_LATEST_RELEASE] ++ evC ++
         (if force = true ∧ ¬quiet = true then [Event.showUpToDate] else [])) ++
       [Event.cacheWriteUpdate] ++ [Event.updateCallback]) := by
    intro pre
    unfold checkMain
    rw [hget]
  have hrun : check_for_app_updates fuel env st current force quiet =
      (.ok (.ver current), st1,
       (if force = true then [Event.invalidateReleases] else []) ++
         ([Event.httpGet GITHUB_LATEST_RELEASE] ++ evC ++
           (if force = true ∧ ¬quiet = true then [Event.showUpToDate] else [])) ++
         [Event.cacheWriteUpdate] ++ [Event.updateCallback]) := by
    unfold check_for_app_updates
    cases force with
    | true => simp [hmain]
    | false =>
      rcases hcl : env.cacheLoad with _ | ⟨t, lv⟩
      · simp [hmain]
      · rcases hmiss with h | h | h
        · cases h
        · rw [h] at hcl; cases hcl
        · have hstale := h t lv hcl
          simp [hstale, hmain]
  rw [hrun]
  refine ⟨rfl, ?_, ?_⟩
  · intro hforce hquiet
    subst hforce; subst hquiet
    simp
  · intro e he
    simp only [List.mem_append, List.mem_cons, List.not_mem_nil, or_false,
      List.mem_singleton] at he
    rcases he with ((h | ((hf | hc) | hg)) | hcw) | hcb
    · split at h
      · simp at h; subst h; rfl
      · simp at h
    · subst hf; rfl
    · exact hnoC e hc
    · split at hg
      · simp at hg; subst hg; rfl
      · simp at hg
    · subst hcw; rfl
    · subst hcb; rfl

/-- A stable-channel settings state requiring SHA verification. -/
def stStable : Settings :=
  { update_channel := "stable", verify_sha := "True", ask_for_update := "True",
    newest_version_available := "1.0.0", update_cache_ttl_seconds := 86400 }

/-- A newer release shipping an installer but no `.sha256` asset. -/
def relNoSha : ReleaseInfo :=
  ⟨"1.2.0", false, [⟨"installer.exe", some "https://x/i.exe"⟩]⟩

def envNoSha : CheckEnv :=
  { now := 0, cacheLoad := none, latestRelease := .ok relNoSha, allReleases := [],
    updateAvailableChoice := none, reminderChoice := false, retryChoice := false }

theorem C1_sha_suppression_witness :
    (check_for_app_updates 0 envNoSha stStable ⟨1, 0, 0, none⟩ true false).1 =
      .ok (.ver ⟨1, 0, 0, none⟩) :=
  (C1_sha_suppression 0 envNoSha stStable stStable ⟨1, 0, 0, none⟩ ⟨1, 2, 0, none⟩
    ⟨1, 2, 0, none⟩ (some "https://x/i.exe") [] relNoSha true false
    (Or.inl rfl) rfl (by decide) rfl rfl (by decide)).1

end HeatSheet
